import Mathlib

/-!
Verification development for the credit-approval backend.

The embedded code comes from the repository sources:
* `project/loans/models.py` — `Loan.calculate_emi`;
* `project/loans/views.py` — `calculate_credit_score`, `get_approval_decision`,
  `check_eligibility`;
* `project/loans/serializers.py` — `LoanEligibilitySerializer` (field shapes);
* `project/customers/serializers.py` — `CustomerRegistrationSerializer.create`.

Modelling conventions:
* Python floats and `Decimal` values are embedded as `ℚ`; Python ints as `ℤ`
  (or `ℕ` where the value is used as an exponent / list length).
* Python `round(x, 2)` rounds half to even on floats; no claim below depends on
  the half-way tie, so the 2-decimal rounding is embedded with Mathlib's
  `round` (half up).  `round(n, -5)` on ints is exact half-to-even in Python
  and is embedded exactly (`pyRoundNeg5`).
* `ZeroDivisionError` (the only exception reachable in the embedded numeric
  code) is modelled by `Option`: `none` means the Python code raises.
* Dates: the scoring code only compares `end_date` with today and reads the
  calendar year of `start_date`.  A date is therefore embedded by the pair of
  an ordering key (`end_date : ℤ`, compared with `today : ℤ`) and a calendar
  year (`start_year : ℤ`, compared with `currentYear : ℤ`).  `timezone.now()`
  is injected as the explicit pair `today`, `currentYear`.
* Django ORM querysets over a customer's loans are embedded as `List Loan`
  snapshots; `filter`/`aggregate(Sum ..)` become `List.filter`/sum of a map.
  The `or 0` on `aggregate` results is absorbed by the empty list summing to 0.
-/

/-- `customers/models.py` — the `Customer` row (fields read by the core;
`monthly_salary`, `approved_limit`, `current_debt` are `IntegerField`s). -/
structure Customer where
  customer_id : ℤ
  first_name : String
  last_name : String
  phone_number : String
  age : ℤ
  monthly_salary : ℤ
  approved_limit : ℤ
  current_debt : ℤ
deriving DecidableEq

/-- `loans/models.py` — the `Loan` row (fields read by the core).
`start_year` is the calendar year of `start_date`; `end_date` is the date's
ordering key (see the header comment on date modelling). -/
structure Loan where
  loan_amount : ℚ
  tenure : ℕ
  interest_rate : ℚ
  monthly_repayment : ℚ
  emis_paid_on_time : ℕ
  start_year : ℤ
  end_date : ℤ
deriving DecidableEq

/-- Python `round(x, 2)` (2-decimal rounding; see header note on ties). -/
def round2 (x : ℚ) : ℚ := ((round (x * 100) : ℤ) : ℚ) / 100

/-- Python `int(x)` — truncation toward zero. -/
def pyInt (q : ℚ) : ℤ := Int.tdiv q.num (q.den : ℤ)

/-- `loans/models.py`, `Loan.calculate_emi(principal, annual_rate, tenure_months)`:
```
if annual_rate == 0:
    return float(principal) / tenure_months
monthly_rate = float(annual_rate) / 12 / 100
emi = float(principal) * monthly_rate * (1 + monthly_rate) ** tenure_months \
      / ((1 + monthly_rate) ** tenure_months - 1)
return round(emi, 2)
```
`none` models the `ZeroDivisionError` raised when the divisor is zero
(`tenure_months = 0` in the first branch, vanishing denominator in the second). -/
def calculate_emi (principal annual_rate : ℚ) (tenure_months : ℕ) : Option ℚ :=
  if annual_rate = 0 then
    if tenure_months = 0 then none
    else some (principal / (tenure_months : ℚ))
  else
    if (1 + annual_rate / 1200) ^ tenure_months - 1 = 0 then none
    else some (round2 (principal * (annual_rate / 1200) *
      (1 + annual_rate / 1200) ^ tenure_months /
      ((1 + annual_rate / 1200) ^ tenure_months - 1)))

/-- The EMI value before the final `round(emi, 2)` of `Loan.calculate_emi`
(and `principal / tenure_months` in the zero-rate branch, which the source
does not round). -/
def emiRaw (principal annual_rate : ℚ) (tenure_months : ℕ) : ℚ :=
  if annual_rate = 0 then principal / (tenure_months : ℚ)
  else principal * (annual_rate / 1200) *
    (1 + annual_rate / 1200) ^ tenure_months /
    ((1 + annual_rate / 1200) ^ tenure_months - 1)

/-- `loans/views.py` — the queryset `loans.filter(end_date__gte=timezone.now().date())`
used by both `calculate_credit_score` and `get_approval_decision`. -/
def currentLoans (loans : List Loan) (today : ℤ) : List Loan :=
  loans.filter (fun l => decide (today ≤ l.end_date))

/-- `current_loans.aggregate(total=Sum('loan_amount'))['total'] or 0`. -/
def currentLoanSum (loans : List Loan) (today : ℤ) : ℚ :=
  ((currentLoans loans today).map Loan.loan_amount).sum

/-- `current_loans.aggregate(total_emi=Sum('monthly_repayment'))['total_emi'] or 0`. -/
def currentEmiSum (loans : List Loan) (today : ℤ) : ℚ :=
  ((currentLoans loans today).map Loan.monthly_repayment).sum

/-- `loans/views.py`, `calculate_credit_score(customer)`.  The customer's loan
rows are passed as the snapshot `loans`; `today`/`currentYear` stand for
`timezone.now().date()` / `timezone.now().year`. -/
def calculate_credit_score (loans : List Loan) (customer : Customer)
    (today currentYear : ℤ) : ℤ :=
  if loans = [] then 50
  else
    let total_tenure : ℕ := (loans.map Loan.tenure).sum
    let paid_on_time : ℕ := (loans.map Loan.emis_paid_on_time).sum
    let factor1 : ℚ :=
      if 0 < total_tenure then
        min 40 ((paid_on_time : ℚ) / (total_tenure : ℚ) * 40)
      else 0
    let loan_count : ℕ := loans.length
    let factor2 : ℚ := if loan_count ≤ 5 then (loan_count : ℚ) * 4 else 20
    let current_year_count : ℕ :=
      (loans.filter (fun l => decide (l.start_year = currentYear))).length
    let factor3 : ℚ := min 20 ((current_year_count : ℚ) * 5)
    let base : ℚ := factor1 + factor2 + factor3
    let final : ℚ :=
      if 0 < customer.approved_limit then
        let utilization : ℚ := currentLoanSum loans today / (customer.approved_limit : ℚ)
        if utilization ≤ 0.5 then base + 20
        else if utilization ≤ 0.75 then base + 10
        else if utilization < 1 then base + 5
        else 0
      else base
    min 100 (max 0 (pyInt final))

/-- The `(approved, corrected_rate, message)` triple returned by
`get_approval_decision`. -/
structure Decision where
  approved : Bool
  corrected_rate : ℚ
  message : String
deriving DecidableEq

/-- The `if credit_score > 50 / elif > 30 / elif > 10 / else` chain of
`get_approval_decision`; `none` is the early `return` with
`"Credit score too low"`. -/
def scoreTierMinRate (credit_score : ℤ) : Option ℚ :=
  if credit_score > 50 then some 10.0
  else if credit_score > 30 then some 12.0
  else if credit_score > 10 then some 16.0
  else none

/-- `loans/views.py`, `get_approval_decision(credit_score, customer,
loan_amount, requested_rate, tenure)`.  `none` models the uncaught
`ZeroDivisionError` propagating out of `Loan.calculate_emi`. -/
def get_approval_decision (credit_score : ℤ) (customer : Customer)
    (loans : List Loan) (loan_amount requested_rate : ℚ) (tenure : ℕ)
    (today : ℤ) : Option Decision :=
  if currentLoanSum loans today + loan_amount > (customer.approved_limit : ℚ) then
    some ⟨false, requested_rate, "Loan amount exceeds approved limit"⟩
  else
    match scoreTierMinRate credit_score with
    | none => some ⟨false, requested_rate, "Credit score too low"⟩
    | some min_interest =>
      let corrected_rate : ℚ := max requested_rate min_interest
      match calculate_emi loan_amount corrected_rate tenure with
      | none => none
      | some monthly_emi =>
        let total_emi : ℚ := monthly_emi + currentEmiSum loans today
        if total_emi > (customer.monthly_salary : ℚ) * 0.5 then
          some ⟨false, corrected_rate, "EMI exceeds 50% of monthly salary"⟩
        else
          some ⟨true, corrected_rate, "Approved"⟩

/-- The response body built by `check_eligibility` (`loans/views.py`);
`message` is present only on rejection, as in the source. -/
structure EligibilityResponse where
  customer_id : ℤ
  approval : Bool
  interest_rate : ℚ
  corrected_interest_rate : ℚ
  tenure : ℕ
  monthly_installment : ℚ
  message : Option String
deriving DecidableEq

/-- `loans/views.py`, `check_eligibility` after request validation and customer
lookup: score, decision, then `monthly_installment =
Loan.calculate_emi(loan_amount, corrected_rate, tenure)`.  `none` models an
uncaught `ZeroDivisionError`. -/
def check_eligibility (customer : Customer) (loans : List Loan)
    (today currentYear : ℤ) (loan_amount interest_rate : ℚ) (tenure : ℕ) :
    Option EligibilityResponse :=
  let credit_score := calculate_credit_score loans customer today currentYear
  match get_approval_decision credit_score customer loans loan_amount
      interest_rate tenure today with
  | none => none
  | some d =>
    match calculate_emi loan_amount d.corrected_rate tenure with
    | none => none
    | some monthly_installment =>
      some ⟨customer.customer_id, d.approved, interest_rate, d.corrected_rate,
        tenure, monthly_installment,
        if d.approved then none else some d.message⟩

/-- `loans/serializers.py`, `LoanEligibilitySerializer`: the request fields
carry shape constraints only — `loan_amount`/`interest_rate` are
`DecimalField(max_digits=12/5, decimal_places=2)` and `tenure` is a plain
`IntegerField`.  No `MinValueValidator` (or any other bound) is declared, so
validation never inspects the sign of the values. -/
def loanEligibilityValid (loan_amount interest_rate : ℚ) (tenure : ℤ) : Bool :=
  decide (loan_amount * 100 = ((⌊loan_amount * 100⌋ : ℤ) : ℚ)) &&
  decide (|loan_amount| < 10 ^ 10) &&
  decide (interest_rate * 100 = ((⌊interest_rate * 100⌋ : ℤ) : ℚ)) &&
  decide (|interest_rate| < 10 ^ 3) &&
  decide (tenure = tenure)

/-- Python `round(x, -5)` on an integer: nearest multiple of 100000, ties to
even (exact integer semantics of CPython `round`). -/
def pyRoundNeg5 (x : ℤ) : ℤ :=
  let q := x / 100000
  let r := x % 100000
  if r < 50000 then q * 100000
  else if 50000 < r then (q + 1) * 100000
  else if q % 2 = 0 then q * 100000
  else (q + 1) * 100000

/-- `customers/serializers.py`, `CustomerRegistrationSerializer.create`:
`approved_limit = round(36 * monthly_income, -5)`, `monthly_salary =
monthly_income`, `current_debt = 0`.  The primary key is assigned by the
database and is passed in explicitly here. -/
def registerCustomer (customer_id : ℤ) (first_name last_name phone_number : String)
    (age monthly_income : ℤ) : Customer :=
  ⟨customer_id, first_name, last_name, phone_number, age,
    monthly_income, pyRoundNeg5 (36 * monthly_income), 0⟩

/-- C6: for every principal `p` and tenure `n > 0`, `calculate_emi p 0 n`
returns exactly `p / n` — straight-line division, with no 2-decimal rounding
applied in the zero-rate branch. -/
theorem C6_zero_rate_emi (p : ℚ) (n : ℕ) (hn : 0 < n) :
    calculate_emi p 0 n = some (p / (n : ℚ)) := by
  unfold calculate_emi
  rw [if_pos rfl, if_neg (Nat.pos_iff_ne_zero.mp hn)]

/-- C6 witness: `calculate_emi 7 0 2 = 7 / 2`. -/
theorem C6_zero_rate_emi_witness : calculate_emi 7 0 2 = some (7 / 2 : ℚ) := by
  simpa using C6_zero_rate_emi 7 2 (by norm_num)

/-- C2: after the limit check passes, the minimum-rate tier is chosen by
strict comparisons — scores 51/50/31/30/11 give minimum rates
10/12/12/16/16, and any score ≤ 10 rejects with "Credit score too low" and
the requested rate unchanged.  The final conjunct holds for every tenure
(including 0, where the EMI division would raise), so no affordability
check is performed on that path. -/
theorem C2_score_tier_rates :
    scoreTierMinRate 51 = some 10 ∧ scoreTierMinRate 50 = some 12 ∧
    scoreTierMinRate 31 = some 12 ∧ scoreTierMinRate 30 = some 16 ∧
    scoreTierMinRate 11 = some 16 ∧
    ∀ (score : ℤ) (customer : Customer) (loans : List Loan) (amount rate : ℚ)
      (tenure : ℕ) (today : ℤ), score ≤ 10 →
      ¬ currentLoanSum loans today + amount > (customer.approved_limit : ℚ) →
      get_approval_decision score customer loans amount rate tenure today =
        some ⟨false, rate, "Credit score too low"⟩ := by
  refine ⟨by norm_num [scoreTierMinRate], by norm_num [scoreTierMinRate],
    by norm_num [scoreTierMinRate], by norm_num [scoreTierMinRate],
    by norm_num [scoreTierMinRate], ?_⟩
  intro score customer loans amount rate tenure today hscore hlim
  unfold get_approval_decision
  rw [if_neg hlim]
  have h1 : ¬ score > 50 := by omega
  have h2 : ¬ score > 30 := by omega
  have h3 : ¬ score > 10 := by omega
  simp only [scoreTierMinRate, if_neg h1, if_neg h2, if_neg h3]

/-- C2 witness: score 10 with the limit check passing is rejected as
"Credit score too low" with the requested rate unchanged. -/
theorem C2_score_tier_rates_witness :
    get_approval_decision 10 ⟨1, "A", "B", "9", 30, 50000, 1800000, 0⟩ [] 1000 8 24 0 =
      some ⟨false, 8, "Credit score too low"⟩ :=
  C2_score_tier_rates.2.2.2.2.2 10 ⟨1, "A", "B", "9", 30, 50000, 1800000, 0⟩ [] 1000 8 24 0
    (by norm_num) (by norm_num [currentLoanSum, currentLoans])

/-- C3: whenever the active-loan principal sum plus the requested amount
exceeds the approved limit, `get_approval_decision` rejects with
"Loan amount exceeds approved limit" and the requested rate unchanged.
The statement quantifies over every score (so the rejection fires even for
score ≤ 10) and every tenure (so no EMI is computed on this path). -/
theorem C3_limit_exceeded_short_circuit (score : ℤ) (customer : Customer)
    (loans : List Loan) (amount rate : ℚ) (tenure : ℕ) (today : ℤ)
    (h : currentLoanSum loans today + amount > (customer.approved_limit : ℚ)) :
    get_approval_decision score customer loans amount rate tenure today =
      some ⟨false, rate, "Loan amount exceeds approved limit"⟩ := by
  unfold get_approval_decision
  rw [if_pos h]

/-- C3 witness: active loans of 1,700,000 against a 1,800,000 limit and a
new 200,000 request are rejected as limit-exceeded (with score 5). -/
theorem C3_limit_exceeded_short_circuit_witness :
    get_approval_decision 5 ⟨1, "A", "B", "9", 30, 50000, 1800000, 0⟩
      [⟨1700000, 120, 10, 22000, 0, 2025, 100⟩] 200000 9 24 0 =
      some ⟨false, 9, "Loan amount exceeds approved limit"⟩ :=
  C3_limit_exceeded_short_circuit 5 ⟨1, "A", "B", "9", 30, 50000, 1800000, 0⟩
    [⟨1700000, 120, 10, 22000, 0, 2025, 100⟩] 200000 9 24 0
    (by norm_num [currentLoanSum, currentLoans])

/-- C5: every decision actually returned by `get_approval_decision` carries a
corrected rate at least the requested rate, in every branch (the three
rejections included). -/
theorem C5_corrected_rate_ge_requested (score : ℤ) (customer : Customer)
    (loans : List Loan) (amount rate : ℚ) (tenure : ℕ) (today : ℤ) (d : Decision)
    (h : get_approval_decision score customer loans amount rate tenure today = some d) :
    rate ≤ d.corrected_rate := by
  unfold get_approval_decision at h
  split_ifs at h with hlim
  · simp only [Option.some.injEq] at h
    subst h
    exact le_rfl
  · cases hts : scoreTierMinRate score with
    | none =>
      rw [hts] at h
      simp only [Option.some.injEq] at h
      subst h
      exact le_rfl
    | some mi =>
      rw [hts] at h
      dsimp only at h
      cases hemi : calculate_emi amount (max rate mi) tenure with
      | none => rw [hemi] at h; simp at h
      | some e =>
        rw [hemi] at h
        dsimp only at h
        split_ifs at h with haff
        · simp only [Option.some.injEq] at h
          subst h
          exact le_max_left _ _
        · simp only [Option.some.injEq] at h
          subst h
          exact le_max_left _ _

/-- C5 witness: at score 0 the decision is the low-score rejection and its
corrected rate equals the requested rate 8. -/
theorem C5_corrected_rate_ge_requested_witness :
    (8 : ℚ) ≤ (Decision.mk false 8 "Credit score too low").corrected_rate :=
  C5_corrected_rate_ge_requested 0 ⟨1, "A", "B", "9", 30, 50000, 1800000, 0⟩ [] 1000 8 24 0
    ⟨false, 8, "Credit score too low"⟩
    (by norm_num [get_approval_decision, scoreTierMinRate, currentLoanSum, currentLoans])

/-- C9: registration computes `approved_limit = round(36 * income, -5)`, which
is a multiple of 100,000 within 50,000 of `36 * income` — i.e. a nearest
multiple of 100,000 — and initializes `current_debt` to 0. -/
theorem C9_approved_limit_rounding (cid : ℤ) (fn ln ph : String) (age m : ℤ)
    (_hm : 0 ≤ m) :
    (registerCustomer cid fn ln ph age m).approved_limit % 100000 = 0 ∧
    -50000 ≤ 36 * m - (registerCustomer cid fn ln ph age m).approved_limit ∧
    36 * m - (registerCustomer cid fn ln ph age m).approved_limit ≤ 50000 ∧
    (registerCustomer cid fn ln ph age m).current_debt = 0 := by
  unfold registerCustomer pyRoundNeg5
  dsimp only
  split_ifs <;> omega

/-- C9 witness: monthly income 50,000 gives `approved_limit = 1,800,000`
(36 × 50,000 rounded to the nearest multiple of 100,000) and debt 0. -/
theorem C9_approved_limit_rounding_witness :
    (registerCustomer 1 "A" "B" "9" 30 50000).approved_limit % 100000 = 0 ∧
    (registerCustomer 1 "A" "B" "9" 30 50000).approved_limit = 1800000 ∧
    (registerCustomer 1 "A" "B" "9" 30 50000).current_debt = 0 := by
  have h := C9_approved_limit_rounding 1 "A" "B" "9" 30 50000 (by norm_num)
  exact ⟨h.1, by norm_num [registerCustomer, pyRoundNeg5], h.2.2.2⟩

/-- C1: with a non-empty loan history and a positive approved limit, a
current-loan utilization ratio of at least 1 forces the credit score to
exactly 0, whatever the other three factors contributed. -/
theorem C1_utilization_zero_override (loans : List Loan) (customer : Customer)
    (today currentYear : ℤ) (hne : loans ≠ [])
    (hlim : 0 < customer.approved_limit)
    (hutil : 1 ≤ currentLoanSum loans today / (customer.approved_limit : ℚ)) :
    calculate_credit_score loans customer today currentYear = 0 := by
  have h05 : ¬ currentLoanSum loans today / (customer.approved_limit : ℚ) ≤ 0.5 := by
    push_neg
    nlinarith [hutil]
  have h075 : ¬ currentLoanSum loans today / (customer.approved_limit : ℚ) ≤ 0.75 := by
    push_neg
    nlinarith [hutil]
  have h1 : ¬ currentLoanSum loans today / (customer.approved_limit : ℚ) < 1 := by
    push_neg
    exact hutil
  unfold calculate_credit_score
  rw [if_neg hne]
  dsimp only
  rw [if_pos hlim, if_neg h05, if_neg h075, if_neg h1]
  have hz : pyInt 0 = 0 := rfl
  rw [hz]
  decide

/-- C1 witness: limit 100,000, one active loan of 100,000 with a perfect
payment history, recent activity — score is still 0. -/
theorem C1_utilization_zero_override_witness :
    calculate_credit_score [⟨100000, 12, 10, 8792, 12, 2026, 100⟩]
      ⟨1, "A", "B", "9", 30, 50000, 100000, 0⟩ 50 2026 = 0 :=
  C1_utilization_zero_override [⟨100000, 12, 10, 8792, 12, 2026, 100⟩]
    ⟨1, "A", "B", "9", 30, 50000, 100000, 0⟩ 50 2026 (by simp) (by norm_num)
    (by norm_num [currentLoanSum, currentLoans])

/-- C4: once the limit check and the score-tier check pass, the decision is
the affordability test — the rejection "EMI exceeds 50% of monthly salary"
(reported at the corrected rate `max rate m`) fires exactly when the new
EMI plus the active loans' installments exceeds half the monthly salary,
and otherwise the request is approved at the corrected rate. -/
theorem C4_affordability_check (score : ℤ) (customer : Customer)
    (loans : List Loan) (amount rate : ℚ) (tenure : ℕ) (today : ℤ) (m e : ℚ)
    (hlim : ¬ currentLoanSum loans today + amount > (customer.approved_limit : ℚ))
    (htier : scoreTierMinRate score = some m)
    (hemi : calculate_emi amount (max rate m) tenure = some e) :
    (e + currentEmiSum loans today > (customer.monthly_salary : ℚ) * 0.5 →
      get_approval_decision score customer loans amount rate tenure today =
        some ⟨false, max rate m, "EMI exceeds 50% of monthly salary"⟩) ∧
    (¬ e + currentEmiSum loans today > (customer.monthly_salary : ℚ) * 0.5 →
      get_approval_decision score customer loans amount rate tenure today =
        some ⟨true, max rate m, "Approved"⟩) := by
  unfold get_approval_decision
  rw [if_neg hlim, htier]
  dsimp only
  rw [hemi]
  dsimp only
  constructor
  · intro haff
    rw [if_pos haff]
  · intro haff
    rw [if_neg haff]

/-- C4 witness: salary 1,000, EMI 101,000 at corrected rate `max 10 12`
over one month — rejected as unaffordable at the corrected rate. -/
theorem C4_affordability_check_witness :
    get_approval_decision 50 ⟨1, "A", "B", "9", 30, 1000, 1800000, 0⟩ [] 100000 10 1 0 =
      some ⟨false, max 10 12, "EMI exceeds 50% of monthly salary"⟩ :=
  (C4_affordability_check 50 ⟨1, "A", "B", "9", 30, 1000, 1800000, 0⟩ [] 100000 10 1 0
    12 101000
    (by norm_num [currentLoanSum, currentLoans])
    (by norm_num [scoreTierMinRate])
    (by norm_num [calculate_emi, round2, round_eq, max_def])).1
    (by norm_num [currentEmiSum, currentLoans])

/-- Helper: a decision whose message is the limit-exceeded or the low-score
rejection carries the requested rate unchanged. -/
theorem decision_message_rate (score : ℤ) (customer : Customer)
    (loans : List Loan) (amount rate : ℚ) (tenure : ℕ) (today : ℤ) (d : Decision)
    (h : get_approval_decision score customer loans amount rate tenure today = some d)
    (hmsg : d.message = "Loan amount exceeds approved limit" ∨
      d.message = "Credit score too low") :
    d.corrected_rate = rate := by
  unfold get_approval_decision at h
  split_ifs at h with hlim
  · simp only [Option.some.injEq] at h
    subst h
    rfl
  · cases hts : scoreTierMinRate score with
    | none =>
      rw [hts] at h
      dsimp only at h
      simp only [Option.some.injEq] at h
      subst h
      rfl
    | some mi =>
      rw [hts] at h
      dsimp only at h
      cases hemi : calculate_emi amount (max rate mi) tenure with
      | none => rw [hemi] at h; simp at h
      | some e =>
        rw [hemi] at h
        dsimp only at h
        split_ifs at h with haff <;>
          · simp only [Option.some.injEq] at h
            subst h
            simp at hmsg

/-- C10: every response actually produced by `check_eligibility` carries a
`monthly_installment` equal to `calculate_emi` at its own
`corrected_interest_rate` over the requested tenure — also on rejections —
and for the limit-exceeded and low-score rejections that rate equals the
requested rate. -/
theorem C10_installment_at_corrected_rate (customer : Customer)
    (loans : List Loan) (today currentYear : ℤ) (amount rate : ℚ) (tenure : ℕ)
    (r : EligibilityResponse)
    (h : check_eligibility customer loans today currentYear amount rate tenure = some r) :
    calculate_emi amount r.corrected_interest_rate tenure = some r.monthly_installment ∧
    ((r.message = some "Loan amount exceeds approved limit" ∨
      r.message = some "Credit score too low") → r.corrected_interest_rate = rate) := by
  unfold check_eligibility at h
  dsimp only at h
  cases hd : get_approval_decision (calculate_credit_score loans customer today currentYear)
      customer loans amount rate tenure today with
  | none => rw [hd] at h; simp at h
  | some d =>
    rw [hd] at h
    dsimp only at h
    cases hemi : calculate_emi amount d.corrected_rate tenure with
    | none => rw [hemi] at h; simp at h
    | some mi =>
      rw [hemi] at h
      simp only [Option.some.injEq] at h
      subst h
      refine ⟨hemi, ?_⟩
      intro hmsg
      dsimp only at hmsg ⊢
      cases hda : d.approved with
      | true => rw [hda] at hmsg; simp at hmsg
      | false =>
        rw [hda] at hmsg
        simp only [Option.some.injEq, if_neg Bool.false_ne_true] at hmsg
        exact decision_message_rate _ customer loans amount rate tenure today d hd hmsg

/-- C10 witness: a concrete rejected request still reports
`monthly_installment = calculate_emi amount corrected_rate tenure`. -/
theorem C10_installment_at_corrected_rate_witness :
    calculate_emi 200000
      (EligibilityResponse.mk 1 false 8 12 1 202000
        (some "EMI exceeds 50% of monthly salary")).corrected_interest_rate 1 =
    some (EligibilityResponse.mk 1 false 8 12 1 202000
        (some "EMI exceeds 50% of monthly salary")).monthly_installment :=
  (C10_installment_at_corrected_rate ⟨1, "A", "B", "9", 30, 50000, 1800000, 0⟩ [] 0 2026
    200000 8 1
    ⟨1, false, 8, 12, 1, 202000, some "EMI exceeds 50% of monthly salary"⟩
    (by norm_num [check_eligibility, calculate_credit_score, get_approval_decision,
      scoreTierMinRate, currentLoanSum, currentEmiSum, currentLoans, calculate_emi,
      round2, round_eq])).1

/-- C8 (code bug): the serializer performs no positivity validation, so the
fail-fast requirement is violated.  A request with `loan_amount = -50000`
(2-decimal, in range — hence valid for `LoanEligibilitySerializer`) flows
through `check_eligibility` and is approved, and a request with
`tenure = 0` is also valid yet reaches the EMI division, which has no
result (`ZeroDivisionError`, an unhandled exception rather than an
`InvalidRequestTerms`-style rejection). -/
theorem C8_no_fail_fast_code_bug :
    loanEligibilityValid (-50000) 10 24 = true ∧
    (check_eligibility (registerCustomer 1 "A" "B" "9" 30 50000) [] 0 2026
      (-50000) 10 24).map EligibilityResponse.approval = some true ∧
    loanEligibilityValid 100000 0 0 = true ∧
    calculate_emi 100000 0 0 = none := by
  refine ⟨?_, ?_, ?_, ?_⟩
  · simp only [loanEligibilityValid, Bool.and_eq_true, decide_eq_true_eq]
    norm_num
  · norm_num [check_eligibility, calculate_credit_score, get_approval_decision,
      scoreTierMinRate, currentLoanSum, currentEmiSum, currentLoans, calculate_emi,
      round2, round_eq, registerCustomer, pyRoundNeg5]
  · simp only [loanEligibilityValid, Bool.and_eq_true, decide_eq_true_eq]
    norm_num
  · norm_num [calculate_emi]

/-- C7 counterexample: the implemented `calculate_emi` is not strictly
monotone.  At principal 0 every rate and tenure give EMI 0 (so a rate
increase 0 → 12 and a tenure increase 1 → 2 change nothing), and the
2-decimal rounding sends the positive principal 1/1000 at rate 12 to the
same EMI 0 as principal 0 — refuting all three strict inequalities of the
claim at these explicit inputs. -/
theorem C7_emi_monotonicity_counterexample :
    calculate_emi 0 0 1 = some 0 ∧
    calculate_emi 0 12 1 = some 0 ∧
    calculate_emi (1/1000) 12 1 = some 0 ∧
    calculate_emi 0 12 2 = some 0 ∧
    (0 : ℚ) < 12 ∧ (0 : ℚ) < 1/1000 ∧ (1 : ℕ) < 2 := by
  refine ⟨?_, ?_, ?_, ?_, by norm_num, by norm_num, by norm_num⟩ <;>
    norm_num [calculate_emi, round2, round_eq]

/-- Helper: a geometric sum with positive base is positive. -/
theorem geomSumPos (x : ℚ) (hx : 0 < x) (n : ℕ) (hn : n ≠ 0) :
    0 < ∑ j ∈ Finset.range n, x ^ j :=
  Finset.sum_pos (fun j _ => pow_pos hx j) (Finset.nonempty_range_iff.mpr hn)

/-- Helper: the zero-rate branch of the raw EMI. -/
theorem emiRaw_zero_rate (p : ℚ) (n : ℕ) : emiRaw p 0 n = p / (n : ℚ) := by
  unfold emiRaw
  simp

/-- Helper: for a non-zero rate the raw EMI equals
`p * (1+m)^n / (geometric sum of (1+m)^j for j < n)` with `m = r/1200`. -/
theorem emiRaw_eq_geom (p r : ℚ) (n : ℕ) (hr : r ≠ 0) :
    emiRaw p r n =
      p * (1 + r / 1200) ^ n / ∑ j ∈ Finset.range n, (1 + r / 1200) ^ j := by
  have hm : r / 1200 ≠ 0 := div_ne_zero hr (by norm_num)
  have hgeom : (∑ j ∈ Finset.range n, (1 + r / 1200) ^ j) * (r / 1200) =
      (1 + r / 1200) ^ n - 1 := by
    have h := geom_sum_mul (1 + r / 1200) n
    simpa using h
  unfold emiRaw
  rw [if_neg hr, ← hgeom,
    show p * (r / 1200) * (1 + r / 1200) ^ n
      = p * (1 + r / 1200) ^ n * (r / 1200) by ring]
  exact mul_div_mul_right _ _ hm

/-- Helper: for a non-zero rate with non-vanishing denominator the raw EMI
equals `p * (m + m / ((1+m)^n - 1))` with `m = r/1200`. -/
theorem emiRaw_add_form (p r : ℚ) (n : ℕ) (hr : r ≠ 0)
    (hd : (1 + r / 1200) ^ n - 1 ≠ 0) :
    emiRaw p r n =
      p * (r / 1200 + (r / 1200) / ((1 + r / 1200) ^ n - 1)) := by
  unfold emiRaw
  rw [if_neg hr]
  set m := r / 1200 with hmdef
  set u := (1 + m) ^ n with hudef
  field_simp
  ring

/-- Helper: the raw EMI is strictly increasing in the rate (from any
non-negative rate), for positive principal and non-zero tenure. -/
theorem emiRaw_lt_of_rate_lt (p : ℚ) (hp : 0 < p) (n : ℕ) (hn : n ≠ 0)
    (r r' : ℚ) (hr0 : 0 ≤ r) (hrr : r < r') :
    emiRaw p r n < emiRaw p r' n := by
  have h1200 : (0:ℚ) < 1200 := by norm_num
  have hr'pos : 0 < r' := lt_of_le_of_lt hr0 hrr
  have hm' : 0 < r' / 1200 := div_pos hr'pos h1200
  have hx'1 : 1 < 1 + r' / 1200 := by linarith
  have hx'0 : (0:ℚ) < 1 + r' / 1200 := by linarith
  have hS' : 0 < ∑ j ∈ Finset.range n, (1 + r' / 1200) ^ j :=
    geomSumPos _ hx'0 n hn
  rcases eq_or_lt_of_le hr0 with rfl | hrpos
  · rw [emiRaw_zero_rate, emiRaw_eq_geom p r' n (ne_of_gt hr'pos)]
    have hnQ : (0:ℚ) < (n : ℚ) := by exact_mod_cast Nat.pos_of_ne_zero hn
    rw [div_lt_div_iff₀ hnQ hS']
    have hterm : ∀ j ∈ Finset.range n, (1 + r' / 1200) ^ j < (1 + r' / 1200) ^ n :=
      fun j hj => pow_lt_pow_right₀ hx'1 (Finset.mem_range.mp hj)
    have hsum : (∑ j ∈ Finset.range n, (1 + r' / 1200) ^ j)
        < (n : ℚ) * (1 + r' / 1200) ^ n := by
      calc (∑ j ∈ Finset.range n, (1 + r' / 1200) ^ j)
          < ∑ _j ∈ Finset.range n, (1 + r' / 1200) ^ n :=
            Finset.sum_lt_sum_of_nonempty (Finset.nonempty_range_iff.mpr hn) hterm
        _ = (n : ℚ) * (1 + r' / 1200) ^ n := by
            rw [Finset.sum_const, Finset.card_range, nsmul_eq_mul]
    calc p * (∑ j ∈ Finset.range n, (1 + r' / 1200) ^ j)
        < p * ((n : ℚ) * (1 + r' / 1200) ^ n) := mul_lt_mul_of_pos_left hsum hp
      _ = p * (1 + r' / 1200) ^ n * (n : ℚ) := by ring
  · have hrne : r ≠ 0 := ne_of_gt hrpos
    have hm : 0 < r / 1200 := div_pos hrpos h1200
    have hx1 : 1 < 1 + r / 1200 := by linarith
    have hx0 : (0:ℚ) < 1 + r / 1200 := by linarith
    have hS : 0 < ∑ j ∈ Finset.range n, (1 + r / 1200) ^ j :=
      geomSumPos _ hx0 n hn
    rw [emiRaw_eq_geom p r n hrne, emiRaw_eq_geom p r' n (ne_of_gt hr'pos)]
    rw [div_lt_div_iff₀ hS hS']
    have hmm : r / 1200 < r' / 1200 := (div_lt_div_iff_of_pos_right h1200).mpr hrr
    have hxx : 1 + r / 1200 < 1 + r' / 1200 := by linarith
    have key : (1 + r / 1200) ^ n * (∑ j ∈ Finset.range n, (1 + r' / 1200) ^ j)
        < (1 + r' / 1200) ^ n * (∑ j ∈ Finset.range n, (1 + r / 1200) ^ j) := by
      rw [Finset.mul_sum, Finset.mul_sum]
      refine Finset.sum_lt_sum_of_nonempty (Finset.nonempty_range_iff.mpr hn) ?_
      intro j hj
      have hj' : j < n := Finset.mem_range.mp hj
      have hpj : 0 < (1 + r / 1200) ^ j := pow_pos hx0 j
      have hpj' : 0 < (1 + r' / 1200) ^ j := pow_pos hx'0 j
      have hpow : (1 + r / 1200) ^ (n - j) < (1 + r' / 1200) ^ (n - j) :=
        pow_lt_pow_left₀ hxx (le_of_lt hx0) (by omega)
      have e1 : (1 + r / 1200) ^ n = (1 + r / 1200) ^ j * (1 + r / 1200) ^ (n - j) := by
        rw [← pow_add]
        congr 1
        omega
      have e2 : (1 + r' / 1200) ^ n = (1 + r' / 1200) ^ j * (1 + r' / 1200) ^ (n - j) := by
        rw [← pow_add]
        congr 1
        omega
      calc (1 + r / 1200) ^ n * (1 + r' / 1200) ^ j
          = ((1 + r / 1200) ^ j * (1 + r' / 1200) ^ j) * (1 + r / 1200) ^ (n - j) := by
            rw [e1]; ring
        _ < ((1 + r / 1200) ^ j * (1 + r' / 1200) ^ j) * (1 + r' / 1200) ^ (n - j) :=
            mul_lt_mul_of_pos_left hpow (mul_pos hpj hpj')
        _ = (1 + r' / 1200) ^ n * (1 + r / 1200) ^ j := by
            rw [e2]; ring
    calc p * (1 + r / 1200) ^ n * (∑ j ∈ Finset.range n, (1 + r' / 1200) ^ j)
        = p * ((1 + r / 1200) ^ n * (∑ j ∈ Finset.range n, (1 + r' / 1200) ^ j)) := by
          ring
      _ < p * ((1 + r' / 1200) ^ n * (∑ j ∈ Finset.range n, (1 + r / 1200) ^ j)) :=
          mul_lt_mul_of_pos_left key hp
      _ = p * (1 + r' / 1200) ^ n * (∑ j ∈ Finset.range n, (1 + r / 1200) ^ j) := by
          ring

/-- Helper: the raw EMI is strictly increasing in the principal for a
non-negative rate and non-zero tenure. -/
theorem emiRaw_lt_of_principal_lt (r : ℚ) (hr : 0 ≤ r) (n : ℕ) (hn : n ≠ 0)
    (p p' : ℚ) (hpp : p < p') : emiRaw p r n < emiRaw p' r n := by
  rcases eq_or_lt_of_le hr with rfl | hrpos
  · rw [emiRaw_zero_rate, emiRaw_zero_rate]
    have hnQ : (0:ℚ) < (n : ℚ) := by exact_mod_cast Nat.pos_of_ne_zero hn
    exact (div_lt_div_iff_of_pos_right hnQ).mpr hpp
  · have h1200 : (0:ℚ) < 1200 := by norm_num
    have hm : 0 < r / 1200 := div_pos hrpos h1200
    have hx0 : (0:ℚ) < 1 + r / 1200 := by linarith
    have hS : 0 < ∑ j ∈ Finset.range n, (1 + r / 1200) ^ j :=
      geomSumPos _ hx0 n hn
    have hX : 0 < (1 + r / 1200) ^ n := pow_pos hx0 n
    rw [emiRaw_eq_geom p r n (ne_of_gt hrpos), emiRaw_eq_geom p' r n (ne_of_gt hrpos)]
    exact (div_lt_div_iff_of_pos_right hS).mpr (mul_lt_mul_of_pos_right hpp hX)

/-- Helper: the raw EMI is strictly decreasing in the tenure for positive
principal and positive rate. -/
theorem emiRaw_lt_of_tenure_lt (p : ℚ) (hp : 0 < p) (r : ℚ) (hr : 0 < r)
    (n n' : ℕ) (hn : n ≠ 0) (hnn : n < n') :
    emiRaw p r n' < emiRaw p r n := by
  have h1200 : (0:ℚ) < 1200 := by norm_num
  have hm : 0 < r / 1200 := div_pos hr h1200
  have hx1 : 1 < 1 + r / 1200 := by linarith
  have hu : 1 < (1 + r / 1200) ^ n := one_lt_pow₀ hx1 hn
  have huu : (1 + r / 1200) ^ n < (1 + r / 1200) ^ n' := pow_lt_pow_right₀ hx1 hnn
  have hd : (1 + r / 1200) ^ n - 1 ≠ 0 := sub_ne_zero_of_ne (ne_of_gt hu)
  have hd' : (1 + r / 1200) ^ n' - 1 ≠ 0 :=
    sub_ne_zero_of_ne (ne_of_gt (lt_trans hu huu))
  rw [emiRaw_add_form p r n (ne_of_gt hr) hd, emiRaw_add_form p r n' (ne_of_gt hr) hd']
  have hstep : (r / 1200) / ((1 + r / 1200) ^ n' - 1)
      < (r / 1200) / ((1 + r / 1200) ^ n - 1) :=
    div_lt_div_of_pos_left hm (by linarith) (by linarith)
  exact mul_lt_mul_of_pos_left (by linarith) hp

/-- C7 (amended): the EMI value before the final 2-decimal rounding
(`emiRaw`) is, for positive principal and non-zero tenure, strictly
increasing in the annual rate (from any non-negative rate) and in the
principal, and strictly decreasing in the tenure for a positive rate; the
implemented `calculate_emi` returns exactly this value 2-decimal-rounded
(unrounded in the zero-rate branch), hence is monotone only up to the 0.01
rounding granularity. -/
theorem C7_emi_monotonicity_amended :
    ∀ (p p' r r' : ℚ) (n n' : ℕ),
      (0 < p → n ≠ 0 → 0 ≤ r → r < r' → emiRaw p r n < emiRaw p r' n) ∧
      (0 ≤ r → n ≠ 0 → p < p' → emiRaw p r n < emiRaw p' r n) ∧
      (0 < p → 0 < r → n ≠ 0 → n < n' → emiRaw p r n' < emiRaw p r n) ∧
      (r ≠ 0 → (1 + r / 1200) ^ n - 1 ≠ 0 →
        calculate_emi p r n = some (round2 (emiRaw p r n))) ∧
      (n ≠ 0 → calculate_emi p 0 n = some (emiRaw p 0 n)) := by
  intro p p' r r' n n'
  refine ⟨fun hp hn hr0 hrr => emiRaw_lt_of_rate_lt p hp n hn r r' hr0 hrr,
    fun hr0 hn hpp => emiRaw_lt_of_principal_lt r hr0 n hn p p' hpp,
    fun hp hr hn hnn => emiRaw_lt_of_tenure_lt p hp r hr n n' hn hnn,
    fun hr hd => ?_, fun hn => ?_⟩
  · unfold calculate_emi emiRaw
    rw [if_neg hr, if_neg hd, if_neg hr]
  · unfold calculate_emi
    rw [if_pos rfl, if_neg hn, emiRaw_zero_rate]

/-- C7 amended witness: concrete instances of the three strict
monotonicity parts and of the link between `calculate_emi` and `emiRaw`. -/
theorem C7_emi_monotonicity_amended_witness :
    emiRaw 1 0 1 < emiRaw 1 1200 1 ∧
    emiRaw 1 0 1 < emiRaw 2 0 1 ∧
    emiRaw 1 1200 2 < emiRaw 1 1200 1 ∧
    calculate_emi 1 1200 1 = some (round2 (emiRaw 1 1200 1)) ∧
    calculate_emi 1 0 1 = some (emiRaw 1 0 1) :=
  ⟨(C7_emi_monotonicity_amended 1 2 0 1200 1 2).1 (by norm_num) (by norm_num)
      (by norm_num) (by norm_num),
   (C7_emi_monotonicity_amended 1 2 0 1200 1 2).2.1 (by norm_num) (by norm_num)
      (by norm_num),
   (C7_emi_monotonicity_amended 1 2 1200 0 1 2).2.2.1 (by norm_num) (by norm_num)
      (by norm_num) (by norm_num),
   (C7_emi_monotonicity_amended 1 2 1200 0 1 2).2.2.2.1 (by norm_num) (by norm_num),
   (C7_emi_monotonicity_amended 1 2 0 1200 1 2).2.2.2.2 (by norm_num)⟩
